import Mathlib

/-!
Verification development for the `parallelizer` concurrency library.

The library's data model is embedded shallowly:

* Go `interface{}` values are modelled as `Option V` over an opaque value type
  `V`; `none` is the Go `nil` interface value.
* A call into user code either returns a value or raises a Go panic carrying a
  payload (which itself may be `nil`); this is the `GoOutcome` type.
* The synchronous worker (`synchronousWorker`, from part_006) is a pure state
  machine: its queue (`container/list.List` used FIFO) becomes a Lean `List`,
  and its `run` drain loop becomes a fuel-indexed recursion (the fuel counts
  loop iterations; the Go loop has no bound, so a large enough fuel reproduces
  any terminating execution, and `none` means the fuel ran out).
* The serializer (`serializer`, from part_001) runs its `Doer` calls in one
  manager goroutine fed by a buffered channel.  The buffered request channel
  becomes a FIFO `List`; the points where a caller blocks (the reply receive in
  `Call`, the `<-s.done` in `Wait`) are the points where the manager's pending
  work is drained, which is the deterministic sequentialisation of the
  protocol.  The `sync.Once` guard becomes a `gonnerRan : Bool` flag.
* `callResult` futures keep their `closed` flag; the single-consumer reply
  channel is modelled by `ready : Option (Option (Result V))` — `some env` when
  a response (possibly the `nil` envelope pointer) is sitting in the channel.
-/

namespace Parallelizer

/-- Sentinel errors of the library.  `errWorkerClosed` is the synchronous
worker's `ErrWorkerClosed`, `errClosed` is the serializer's `ErrClosed` (both
are the spec's `CLOSED_ERROR`); `errWouldDeadlock` is `ErrWouldDeadlock`
(the spec's `DEADLOCK_ERROR`). -/
inductive GoErr
  | errWorkerClosed
  | errWouldDeadlock
  | errClosed
deriving DecidableEq, Repr

/-- Outcome of calling a user-supplied Go function on one argument: it either
returns a value (possibly the `nil` interface) or panics with a payload
(possibly `nil`; `panic(nil)` is legal in the Go version this code targets,
and `recover` then returns `nil` while still stopping the panic). -/
inductive GoOutcome (V : Type)
  | returns (v : Option V)
  | panics (payload : Option V)
deriving DecidableEq, Repr

/-- The `Result` envelope (second doc of parallel_test.go, the common code):
`type Result struct { Result interface{}; Panic interface{} }`. -/
structure Result (V : Type) where
  result : Option V
  panic : Option V
deriving DecidableEq, Repr

/-- The panic harness `panicer(fn, data) (result *Result)` of the common code
(parallel_test.go lines 533-542), a deferred `recover()` around
`return &Result{Result: fn(data)}`.
If `fn` returns `v`, the named return is set to `&Result{Result: v}` and the
deferred `recover()` yields `nil`, leaving it alone.  If `fn` panics, the
`return` statement never runs, so the named return still holds its zero value
(the `nil` pointer); `recover()` stops the panic in every case, and only a
non-`nil` payload overwrites the named return with `&Result{Panic: payload}`.
The harness therefore always returns (never re-panics), which is why this
embedding is a total function into `Option (Result V)` — `none` is the `nil`
`*Result` pointer. -/
def panicer {V : Type} (fn : Option V → GoOutcome V) (data : Option V) :
    Option (Result V) :=
  match fn data with
  | .returns v => some { result := v, panic := none }
  | .panics (some p) => some { result := none, panic := some p }
  | .panics none => none

/-- The `runResult` envelope used by the synchronous worker's generation of the
code: a value struct with fields `result` and `panicData`. -/
structure runResult (V : Type) where
  result : Option V
  panicData : Option V
deriving DecidableEq, Repr

/-- Modelled from the spec: the `runResult`-returning form of the panic harness
invoked by `synchronousWorker.run` (part_006 line 53 calls
`panicer(w.runner, elem.Value)` and reads `.result` / `.panicData`) is not
among the sources; only its tests (part_002, `TestPanicerBase` /
`TestPanicerPanic`) and the spec's §4.1 envelope description are.  On normal
completion of `Run` the envelope is `{result: v}`; on a panic the named return
keeps its zero value `{nil, nil}` except that a non-`nil` recovered payload
fills `panicData` — so a panic with payload `p` (possibly `nil`) yields
`{result: nil, panicData: p}`. -/
def panicerRun {V : Type} (run : Option V → GoOutcome V) (data : Option V) :
    runResult V :=
  match run data with
  | .returns v => { result := v, panicData := none }
  | .panics p => { result := none, panicData := p }

/-- The synchronous worker's state enum (part_005 / part_004):
`workerNew`, `workerRunning`, `workerClosed`, `workerResult`. -/
inductive workerState
  | workerNew
  | workerRunning
  | workerClosed
  | workerResult
deriving DecidableEq, Repr

/-- A `Runner` as seen by the synchronous worker.  `Run` is a pure function of
its argument; `Integrate(worker, result, panicData)` is user code whose only
interaction with the worker that the worker's own correctness depends on is
the (ordered) sequence of re-entrant `worker.Call` submissions it makes, so it
is modelled as that list of submissions, a function of the envelope it
receives; `Result()` is modelled as its pure return value. -/
structure Runner (V : Type) where
  run : Option V → GoOutcome V
  integrate : runResult V → List (Option V)
  result : Option V

/-- The synchronous worker (part_006): state, FIFO queue, the re-entrancy
`running` flag, and the cached result (the zero value of an `interface{}`
field is `nil`, i.e. `none`).  The `runner` field is passed to the method
embeddings as an explicit argument instead of being stored. -/
structure synchronousWorker (V : Type) where
  state : workerState
  queue : List (Option V)
  running : Bool
  result : Option V
deriving DecidableEq, Repr

/-- Events recorded while the synchronous worker drains its queue: a
`Runner.Run` invocation (through the harness) on an item, and a
`Runner.Integrate` invocation on an envelope. -/
inductive SyncEvent (V : Type)
  | run (data : Option V)
  | integrate (env : runResult V)
deriving DecidableEq, Repr

/-- The items on which `Run` was invoked, in order, extracted from a trace. -/
def runsOf {V : Type} (tr : List (SyncEvent V)) : List (Option V) :=
  tr.filterMap fun e =>
    match e with
    | .run d => some d
    | .integrate _ => none

/-- The trace that processes the given items in order: for each item, a `Run`
invocation followed by an `Integrate` invocation on the envelope the harness
built from it. -/
def tracePairs {V : Type} (r : Runner V) : List (Option V) → List (SyncEvent V)
  | [] => []
  | d :: rest =>
      .run d :: .integrate (panicerRun r.run d) :: tracePairs r rest

/-- The `switch w.state` at the top of `synchronousWorker.Call`
(part_006 lines 65-75): `workerNew` transitions to `workerRunning`;
`workerClosed` / `workerResult` are rejected (`none`, i.e. `ErrWorkerClosed`)
unless the `running` flag is set, which accepts recursive Calls even when
closed. -/
def callStateCheck {V : Type} (w : synchronousWorker V) :
    Option (synchronousWorker V) :=
  match w.state with
  | .workerNew => some { w with state := .workerRunning }
  | .workerRunning => some w
  | .workerClosed => if w.running then some w else none
  | .workerResult => if w.running then some w else none

/-- `synchronousWorker.Call` as executed while the `running` flag is already
true: the state check, then `w.queue.PushBack(data)`, then the early return
(part_006 lines 77-84).  `none` means the call returned `ErrWorkerClosed`
without touching the queue. -/
def callEnqueue {V : Type} (w : synchronousWorker V) (data : Option V) :
    Option (synchronousWorker V) :=
  (callStateCheck w).map fun w1 => { w1 with queue := w1.queue ++ [data] }

/-- The re-entrant `worker.Call` submissions made by one `Integrate`
invocation, applied in order.  During a drain the `running` flag is true, so
each such Call takes the `callEnqueue` path of `synchronousWorker.Call`
(theorem `swCall_running` below proves the full `swCall` agrees with
`callEnqueue` whenever `running` is true); the error a rejected Call returns
goes back to the user's `Integrate` code, which the worker does not observe. -/
def integrateSubmit {V : Type} (w : synchronousWorker V) :
    List (Option V) → synchronousWorker V
  | [] => w
  | i :: rest =>
      match callEnqueue w i with
      | some w1 => integrateSubmit w1 rest
      | none => integrateSubmit w rest

/-- `synchronousWorker.run` (part_006 lines 46-58): while the queue is
non-empty, pop the front element, run the harness on it, and invoke
`Integrate` with the envelope's fields.  `fuel` bounds the number of loop
iterations; `none` means the bound was hit with the queue still non-empty.
The returned trace records the `Run` and `Integrate` invocations in order. -/
def swRun {V : Type} (r : Runner V) :
    Nat → synchronousWorker V → Option (synchronousWorker V × List (SyncEvent V))
  | 0, w =>
      match w.queue with
      | [] => some (w, [])
      | _ :: _ => none
  | fuel + 1, w =>
      match w.queue with
      | [] => some (w, [])
      | d :: rest =>
          match swRun r fuel
              (integrateSubmit { w with queue := rest }
                (r.integrate (panicerRun r.run d))) with
          | none => none
          | some (w2, tr) =>
              some (w2, .run d :: .integrate (panicerRun r.run d) :: tr)

/-- `synchronousWorker.Call` (part_006 lines 63-94): state check, enqueue,
and — unless the `running` flag is already set — set the flag, drain the queue
via `run`, and clear the flag.  Returns the updated worker, the returned
error, and the trace of `Run`/`Integrate` invocations. -/
def swCall {V : Type} (r : Runner V) (fuel : Nat) (w : synchronousWorker V)
    (data : Option V) :
    Option (synchronousWorker V × Option GoErr × List (SyncEvent V)) :=
  match callStateCheck w with
  | none => some (w, some .errWorkerClosed, [])
  | some w1 =>
      let w2 := { w1 with queue := w1.queue ++ [data] }
      if w2.running then some (w2, none, [])
      else
        match swRun r fuel { w2 with running := true } with
        | none => none
        | some (w3, tr) => some ({ w3 with running := false }, none, tr)

/-- Output of `synchronousWorker.Wait`: the updated worker, the returned
value, the returned error, and whether this call invoked `Runner.Result`. -/
structure WaitOut (V : Type) where
  worker : synchronousWorker V
  value : Option V
  err : Option GoErr
  invokedResult : Bool
deriving DecidableEq, Repr

/-- `synchronousWorker.Wait` (part_006 lines 103-117): if the `running` flag
is set, return `ErrWouldDeadlock`; otherwise in states `workerNew`,
`workerRunning`, `workerClosed` invoke `Runner.Result`, cache it, move to
`workerResult`, and return it; in `workerResult` return the cached value. -/
def swWait {V : Type} (r : Runner V) (w : synchronousWorker V) : WaitOut V :=
  if w.running then ⟨w, none, some .errWouldDeadlock, false⟩
  else
    match w.state with
    | .workerNew =>
        ⟨{ w with result := r.result, state := .workerResult }, r.result, none, true⟩
    | .workerRunning =>
        ⟨{ w with result := r.result, state := .workerResult }, r.result, none, true⟩
    | .workerClosed =>
        ⟨{ w with result := r.result, state := .workerResult }, r.result, none, true⟩
    | .workerResult => ⟨w, w.result, none, false⟩

/-- Specification-side description of the drain loop, following the spec's
words (§4.3): while the queue is non-empty, pop the front item, invoke `Run`
through the harness and `Integrate` on the envelope, appending whatever
`Integrate` submits to the back of the queue; the same loop consumes those
items.  The value is the list of items processed, in order; `fuel` bounds the
iterations as in `swRun`. -/
def drainSpecOrder {V : Type} (r : Runner V) :
    Nat → List (Option V) → Option (List (Option V))
  | 0, [] => some []
  | 0, _ :: _ => none
  | _ + 1, [] => some []
  | fuel + 1, d :: rest =>
      (drainSpecOrder r fuel (rest ++ r.integrate (panicerRun r.run d))).map
        (d :: ·)

/-- The serializer's state enum (second doc of parallel_test.go):
`pNew`, `pRunning`, `pClosed`, `pResult`. -/
inductive pState
  | pNew
  | pRunning
  | pClosed
  | pResult
deriving DecidableEq, Repr

/-- A `doRequest` (part_001 lines 28-31): the data for `Doer.Do` and an
optional reply channel, modelled as the flag `hasResult` (whether a reply
channel was attached; the channel identity itself is tracked by the
`callResult` future that holds its receive end). -/
structure doRequest (V : Type) where
  data : Option V
  hasResult : Bool
deriving DecidableEq, Repr

/-- A `Doer`: `Do` is a user function that may panic (hence `GoOutcome`);
`Finish` is modelled as its pure return value.  The field is named `doFn`
because `do` is reserved in Lean. -/
structure Doer (V : Type) where
  doFn : Option V → GoOutcome V
  finish : Option V

/-- The serializer (part_001 lines 34-42).  The buffered `request` channel is
the FIFO list of requests the manager goroutine has not yet consumed;
`requestClosed` records whether `close(s.request)` has happened; `gonnerRan`
is the state of the `sync.Once` guard `gonner`; `result` is the cached value
from `Doer.Finish` (zero value `nil`). -/
structure serializer (V : Type) where
  state : pState
  request : List (doRequest V)
  requestClosed : Bool
  gonnerRan : Bool
  result : Option V
deriving DecidableEq, Repr

/-- `serializer.getResult` (part_001 lines 75-81): cache `doer.Finish()` and
move to `pResult`. -/
def getResult {V : Type} (d : Doer V) (s : serializer V) : serializer V :=
  { s with result := d.finish, state := .pResult }

/-- `s.gonner.Do(s.getResult)`: run `getResult` if the once-guard has not
fired yet.  The returned flag says whether this call invoked
`Doer.Finish`. -/
def gonnerDo {V : Type} (d : Doer V) (s : serializer V) : serializer V × Bool :=
  if s.gonnerRan then (s, false)
  else ({ getResult d s with gonnerRan := true }, true)

/-- One pass of the manager goroutine's loop over a list of buffered requests
(part_001 lines 59-70): each request runs `Doer.Do` through the panic
harness; the envelope is sent to the reply channel when one is attached and
discarded otherwise.  The value is the list of envelopes produced, in order
(its length is the number of `Doer.Do` invocations). -/
def managerDrain {V : Type} (d : Doer V) (reqs : List (doRequest V)) :
    List (Option (Result V)) :=
  reqs.map fun req => panicer d.doFn req.data

/-- Output of `serializer.Wait`: the updated serializer, the returned value,
whether this call executed `close(s.request)`, whether it received from
`s.done`, how many times it invoked `Doer.Finish`, and how many `Doer.Do`
invocations the manager performed while this call waited. -/
structure serWaitOut (V : Type) where
  st : serializer V
  value : Option V
  closedChannel : Bool
  awaitedDone : Bool
  finishCalls : Nat
  doCalls : Nat
deriving DecidableEq, Repr

/-- `serializer.Wait` (part_001 lines 165-190).  From `pNew`: move to
`pClosed` and run the once-guard (no channel close, no `done` wait).  From
`pRunning`: move to `pClosed`, `close(s.request)` — upon which the manager
drains every buffered request and then signals `done` — receive from `done`,
and run the once-guard.  From `pClosed`: run the once-guard.  From `pResult`:
return the cached result.  In every case the returned value is `s.result`
as read after the once-guard. -/
def serWait {V : Type} (d : Doer V) (s : serializer V) : serWaitOut V :=
  match s.state with
  | .pNew =>
      let s1 := { s with state := .pClosed }
      let fired := gonnerDo d s1
      ⟨fired.1, fired.1.result, false, false, if fired.2 then 1 else 0, 0⟩
  | .pRunning =>
      let drained := managerDrain d s.request
      let s1 := { s with state := .pClosed, requestClosed := true, request := [] }
      let fired := gonnerDo d s1
      ⟨fired.1, fired.1.result, true, true, if fired.2 then 1 else 0, drained.length⟩
  | .pClosed =>
      let fired := gonnerDo d s
      ⟨fired.1, fired.1.result, false, false, if fired.2 then 1 else 0, 0⟩
  | .pResult => ⟨s, s.result, false, false, 0, 0⟩

/-- Output of `serializer.Call`: the updated serializer, the reply envelope
(`none` both for the `nil` envelope and when an error is returned), the
returned error, and the number of `Doer.Do` invocations performed before the
call returned. -/
structure serCallOut (V : Type) where
  st : serializer V
  res : Option (Result V)
  err : Option GoErr
  doCalls : Nat
deriving DecidableEq, Repr

/-- `serializer.Call` (part_001 lines 87-110).  `pClosed` / `pResult` reject
with `ErrClosed` before anything is sent.  Otherwise (`pNew` starts the
manager goroutine and moves to `pRunning`) the request is sent with a reply
channel and the caller blocks on the reply: the manager works through the
buffered requests in FIFO order and then this one, whose envelope is
returned. -/
def serCall {V : Type} (d : Doer V) (s : serializer V) (data : Option V) :
    serCallOut V :=
  match s.state with
  | .pClosed => ⟨s, none, some .errClosed, 0⟩
  | .pResult => ⟨s, none, some .errClosed, 0⟩
  | _ =>
      let prior := managerDrain d s.request
      ⟨{ s with state := .pRunning, request := [] },
        panicer d.doFn data, none, prior.length + 1⟩

/-- A `callResult` future (part_001 lines 193-196): the receive end of the
reply channel — `ready = some env` when a response is sitting in it — and the
`closed` flag. -/
structure callResult (V : Type) where
  ready : Option (Option (Result V))
  closed : Bool
deriving DecidableEq, Repr

/-- Output of `serializer.CallAsync`: the updated serializer, the returned
future (`none` when an error is returned), and the returned error. -/
structure serCallAsyncOut (V : Type) where
  st : serializer V
  future : Option (callResult V)
  err : Option GoErr
deriving DecidableEq, Repr

/-- `serializer.CallAsync` (part_001 lines 115-138): same state check as
`Call`, but the request is buffered and a fresh future over its reply channel
is returned without blocking (so no `Doer.Do` invocation happens inside the
call itself). -/
def serCallAsync {V : Type} (s : serializer V) (data : Option V) :
    serCallAsyncOut V :=
  match s.state with
  | .pClosed => ⟨s, none, some .errClosed⟩
  | .pResult => ⟨s, none, some .errClosed⟩
  | _ =>
      ⟨{ s with state := .pRunning, request := s.request ++ [⟨data, true⟩] },
        some ⟨none, false⟩, none⟩

/-- Output of `serializer.CallOnly`: the updated serializer and the returned
error. -/
structure serCallOnlyOut (V : Type) where
  st : serializer V
  err : Option GoErr
deriving DecidableEq, Repr

/-- `serializer.CallOnly` (part_001 lines 142-159): same state check, then the
request is buffered without a reply channel and the call returns. -/
def serCallOnly {V : Type} (s : serializer V) (data : Option V) :
    serCallOnlyOut V :=
  match s.state with
  | .pClosed => ⟨s, some .errClosed⟩
  | .pResult => ⟨s, some .errClosed⟩
  | _ =>
      ⟨{ s with state := .pRunning, request := s.request ++ [⟨data, false⟩] },
        none⟩

/-- What a blocking call does: either it blocks at this point (no response
will arrive within the modelled step) or it returns a value. -/
inductive crBlockOr (V : Type)
  | blocks
  | returns (env : Option (Result V))
deriving DecidableEq, Repr

/-- `callResult.Wait` (part_001 lines 201-210): if closed, return `nil`;
otherwise set `closed` (this happens before the receive) and receive from the
reply channel — consuming the response if one is there, blocking
otherwise. -/
def crWait {V : Type} (c : callResult V) : callResult V × crBlockOr V :=
  if c.closed then (c, .returns none)
  else
    match c.ready with
    | some env => ({ c with closed := true, ready := none }, .returns env)
    | none => ({ c with closed := true }, .blocks)

/-- `callResult.TryWait` (part_001 lines 215-230): if closed, `(nil, false)`;
otherwise a non-blocking select — if a response is ready, consume it, set
`closed` and return `(env, true)`; if not, return `(nil, true)` without
setting `closed`. -/
def crTryWait {V : Type} (c : callResult V) :
    callResult V × Option (Result V) × Bool :=
  if c.closed then (c, none, false)
  else
    match c.ready with
    | some env => ({ c with closed := true, ready := none }, env, true)
    | none => (c, none, true)

/-- `callResult.Channel` (part_001 lines 238-247): if closed, return `nil`;
otherwise set `closed` and hand out the (non-`nil`) channel.  The flag in the
result says whether a non-`nil` channel was returned; an undelivered response
stays in the channel (`ready` unchanged), now owned by the caller. -/
def crChannel {V : Type} (c : callResult V) : callResult V × Bool :=
  if c.closed then (c, false)
  else ({ c with closed := true }, true)

/-- Operations that can act on a `callResult` over its lifetime: its three
methods, plus the manager delivering the response into the reply channel. -/
inductive crOp (V : Type)
  | wait
  | tryWait
  | channel
  | deliver (env : Option (Result V))
deriving DecidableEq, Repr

/-- Whether an operation on the given future counts as the consuming success
of the claimed one-shot contract: `Wait` returning the response,
`TryWait` returning `(response, true)`, or `Channel` returning a non-`nil`
channel. -/
def crSuccess {V : Type} (c : callResult V) : crOp V → Bool
  | .wait => !c.closed && c.ready.isSome
  | .tryWait => !c.closed && c.ready.isSome
  | .channel => !c.closed
  | .deliver _ => false

/-- The future's state after an operation.  A `deliver` puts the response
into the reply channel if the (capacity-one) channel is still empty. -/
def crApply {V : Type} (c : callResult V) : crOp V → callResult V
  | .wait => (crWait c).1
  | .tryWait => (crTryWait c).1
  | .channel => (crChannel c).1
  | .deliver env =>
      match c.ready with
      | none => { c with ready := some env }
      | some e => { c with ready := some e }

/-- The number of consuming successes along a sequence of operations. -/
def crCount {V : Type} (c : callResult V) : List (crOp V) → Nat
  | [] => 0
  | op :: rest =>
      (if crSuccess c op then 1 else 0) + crCount (crApply c op) rest

/-- Modelled from the spec: the parallel worker implementation
(`parallelWorker` / `parallelManager`) is not among the sources — only its
tests (parallel_test.go) are.  The spec (§4.4, §8.6) states that the handle
passed to `Integrate` is the coordinator-scoped `parallelManager`, whose
`Call` appends directly onto the coordinator's internal queue and whose
`Wait` always returns `DEADLOCK_ERROR` with a `nil` result
(`TestParallelManagerWait`, parallel_test.go lines 487-494;
`TestParallelManagerCall`, lines 475-485). -/
structure parallelManager (V : Type) where
  queue : List (Option V)
deriving DecidableEq, Repr

/-- Modelled from the spec: `parallelManager.Call` appends the item to the
back of the coordinator's internal queue and returns no error. -/
def pmCall {V : Type} (m : parallelManager V) (data : Option V) :
    parallelManager V × Option GoErr :=
  ({ queue := m.queue ++ [data] }, none)

/-- Modelled from the spec: `parallelManager.Wait` always returns
`(nil, DEADLOCK_ERROR)`. -/
def pmWait {V : Type} (_ : parallelManager V) : Option V × Option GoErr :=
  (none, some .errWouldDeadlock)

/-! Concrete instances used by witnesses and counterexamples. -/

/-- A runner over `Nat` whose `Run` echoes its input, whose `Integrate`
submits nothing, and whose `Result` is `42`. -/
def rEcho : Runner Nat :=
  { run := fun v => .returns v, integrate := fun _ => [], result := some 42 }

/-- A runner whose `Integrate` re-entrantly submits the item `2` when it sees
the envelope produced from item `1`, and nothing otherwise. -/
def rExpand : Runner Nat :=
  { run := fun v => .returns v
    integrate := fun env =>
      match env.result with
      | some 1 => [some 2]
      | _ => []
    result := some 0 }

/-- A fresh synchronous worker. -/
def wFresh : synchronousWorker Nat :=
  { state := .workerNew, queue := [], running := false, result := none }

/-- A synchronous worker that has cached result `42`. -/
def wDone : synchronousWorker Nat :=
  { state := .workerResult, queue := [], running := false, result := some 42 }

/-- A closed synchronous worker, not inside a drain. -/
def wClosedIdle : synchronousWorker Nat :=
  { state := .workerClosed, queue := [], running := false, result := none }

/-- A closed synchronous worker observed from inside a drain
(`running` set). -/
def wClosedBusy : synchronousWorker Nat :=
  { state := .workerClosed, queue := [], running := true, result := none }

/-- A running synchronous worker observed from inside a drain. -/
def wBusy : synchronousWorker Nat :=
  { state := .workerRunning, queue := [], running := true, result := none }

/-- The worker `swCall rExpand 4 wFresh (some 1)` ends in. -/
def wAfterExpand : synchronousWorker Nat :=
  { state := .workerRunning, queue := [], running := false, result := none }

/-- The trace `swCall rExpand 4 wFresh (some 1)` produces. -/
def trExpand : List (SyncEvent Nat) :=
  [.run (some 1), .integrate { result := some 1, panicData := none },
   .run (some 2), .integrate { result := some 2, panicData := none }]

/-- A doer over `Nat` whose `Do` echoes its input and whose `Finish`
returns `7`. -/
def dEcho : Doer Nat :=
  { doFn := fun v => .returns v, finish := some 7 }

/-- A fresh serializer. -/
def serFresh : serializer Nat :=
  { state := .pNew, request := [], requestClosed := false, gonnerRan := false,
    result := none }

/-- A running serializer with one buffered request. -/
def serBusy : serializer Nat :=
  { state := .pRunning, request := [{ data := some 1, hasResult := false }],
    requestClosed := false, gonnerRan := false, result := none }

/-- A serializer whose `Wait` has completed. -/
def serDone : serializer Nat :=
  { state := .pResult, request := [], requestClosed := true, gonnerRan := true,
    result := some 7 }

/-- An open future with a response sitting in its reply channel. -/
def crReady : callResult Nat :=
  { ready := some (some { result := some 5, panic := none }), closed := false }

/-- A function that always returns its argument. -/
def fnEcho : Option Nat → GoOutcome Nat := fun v => .returns v

/-- A function that always panics with the payload `9`. -/
def fnBoom : Option Nat → GoOutcome Nat := fun _ => .panics (some 9)

/-- A function that always panics with a `nil` payload. -/
def fnNilPanic : Option Nat → GoOutcome Nat := fun _ => .panics none

/-! Helper lemmas about the synchronous worker. -/

/-- A worker accepted by the state check: only the `state` field may have
changed (`workerNew` steps to `workerRunning`), and the resulting state is
never `workerNew`. -/
theorem callStateCheck_cases {V : Type} {w w1 : synchronousWorker V}
    (h : callStateCheck w = some w1) :
    w1.queue = w.queue ∧ w1.running = w.running ∧ w1.result = w.result ∧
      w1.state ≠ .workerNew := by
  cases hs : w.state with
  | workerNew =>
      simp only [callStateCheck, hs, Option.some.injEq] at h
      subst h
      simp
  | workerRunning =>
      simp only [callStateCheck, hs, Option.some.injEq] at h
      subst h
      simp [hs]
  | workerClosed =>
      cases hr : w.running with
      | false => simp [callStateCheck, hs, hr] at h
      | true =>
          simp only [callStateCheck, hs, hr, if_true, Option.some.injEq] at h
          subst h
          simp [hs, hr]
  | workerResult =>
      cases hr : w.running with
      | false => simp [callStateCheck, hs, hr] at h
      | true =>
          simp only [callStateCheck, hs, hr, if_true, Option.some.injEq] at h
          subst h
          simp [hs, hr]

/-- While the `running` flag is set and the state is past `workerNew`, the
state check accepts the worker unchanged. -/
theorem callStateCheck_running {V : Type} {w : synchronousWorker V}
    (h1 : w.running = true) (h2 : w.state ≠ .workerNew) :
    callStateCheck w = some w := by
  cases hs : w.state with
  | workerNew => exact absurd hs h2
  | workerRunning => simp [callStateCheck, hs]
  | workerClosed => simp [callStateCheck, hs, h1]
  | workerResult => simp [callStateCheck, hs, h1]

/-- While the `running` flag is set, the full `Call` is exactly an enqueue:
the state check cannot reject (the `workerClosed` / `workerResult` branch is
guarded by `!w.running`), the item is appended, and the early return fires
before any drain.  This certifies that `integrateSubmit`'s use of
`callEnqueue` for re-entrant Calls agrees with `swCall`. -/
theorem swCall_running {V : Type} (r : Runner V) (fuel : Nat)
    {w : synchronousWorker V} (d : Option V) (h : w.running = true) :
    ∃ w1, callEnqueue w d = some w1 ∧ swCall r fuel w d = some (w1, none, []) := by
  cases hs : w.state <;>
    simp [callEnqueue, callStateCheck, swCall, hs, h]

/-- During a drain (`running` set, state past `workerNew`) the submissions of
one `Integrate` invocation are appended to the back of the queue, and nothing
else changes. -/
theorem integrateSubmit_running {V : Type} :
    ∀ (items : List (Option V)) (w : synchronousWorker V),
      w.running = true → w.state ≠ .workerNew →
      integrateSubmit w items = { w with queue := w.queue ++ items }
  | [], w, _, _ => by simp [integrateSubmit]
  | i :: rest, w, h1, h2 => by
      have henq : callEnqueue w i = some { w with queue := w.queue ++ [i] } := by
        simp [callEnqueue, callStateCheck_running h1 h2]
      simp only [integrateSubmit, henq]
      rw [integrateSubmit_running rest { w with queue := w.queue ++ [i] } h1 h2]
      simp

/-- The drain loop `run`: started with the `running` flag set and the state
past `workerNew`, a successful drain empties the queue and changes nothing
else; its trace is the `Run`/`Integrate` pair sequence over the processed
items; and the processed items are exactly the spec's FIFO processing order
of the starting queue. -/
theorem swRun_spec {V : Type} (r : Runner V) :
    ∀ (fuel : Nat) (w w2 : synchronousWorker V) (tr : List (SyncEvent V)),
      w.running = true → w.state ≠ .workerNew →
      swRun r fuel w = some (w2, tr) →
      w2 = { w with queue := [] } ∧ tr = tracePairs r (runsOf tr) ∧
        drainSpecOrder r fuel w.queue = some (runsOf tr)
  | 0, w, w2, tr, _, _, h => by
      cases hq : w.queue with
      | nil =>
          simp only [swRun, hq, Option.some.injEq, Prod.mk.injEq] at h
          obtain ⟨rfl, rfl⟩ := h
          refine ⟨?_, by simp [tracePairs, runsOf],
            by simp [drainSpecOrder, hq, runsOf]⟩
          cases w
          simp_all
      | cons d rest =>
          simp only [swRun, hq] at h
          exact Option.noConfusion h
  | fuel + 1, w, w2, tr, h1, h2, h => by
      cases hq : w.queue with
      | nil =>
          simp only [swRun, hq, Option.some.injEq, Prod.mk.injEq] at h
          obtain ⟨rfl, rfl⟩ := h
          refine ⟨?_, by simp [tracePairs, runsOf],
            by simp [drainSpecOrder, hq, runsOf]⟩
          cases w
          simp_all
      | cons d rest =>
          simp only [swRun, hq] at h
          rw [integrateSubmit_running (r.integrate (panicerRun r.run d))
            { w with queue := rest } h1 h2] at h
          cases hrec : swRun r fuel
              { w with queue := rest ++ r.integrate (panicerRun r.run d) } with
          | none => rw [hrec] at h; simp at h
          | some out =>
              obtain ⟨w3, tr3⟩ := out
              rw [hrec] at h
              simp only [Option.some.injEq, Prod.mk.injEq] at h
              obtain ⟨rfl, rfl⟩ := h
              obtain ⟨hw3, htr3, hord⟩ :=
                swRun_spec r fuel
                  { w with queue := rest ++ r.integrate (panicerRun r.run d) }
                  w3 tr3 h1 h2 hrec
              have hruns :
                  runsOf (SyncEvent.run d ::
                    SyncEvent.integrate (panicerRun r.run d) :: tr3) =
                    d :: runsOf tr3 := by
                simp [runsOf]
              refine ⟨hw3, ?_, ?_⟩
              · rw [hruns, tracePairs, ← htr3]
              · have hord2 :
                    drainSpecOrder r fuel
                      (rest ++ r.integrate (panicerRun r.run d)) =
                      some (runsOf tr3) := hord
                rw [hruns]
                simp only [drainSpecOrder, hord2, Option.map_some']

/-! ### C1: first `Wait` on the synchronous worker -/

/-- C1.  For the synchronous worker, the first `Wait` made while the
`running` flag is false and the state is `workerNew`, `workerRunning` or
`workerClosed` invokes `Runner.Result` (exactly once), caches the value,
moves to `workerResult`, and returns the cached value with a `nil` error;
a subsequent `Wait` returns the same cached value with a `nil` error without
invoking `Result`, and a subsequent `Call` cannot disturb the cached state
(it is rejected, leaving the worker unchanged), so every later `Wait` keeps
returning the cached value. -/
theorem c1_sync_wait_once {V : Type} (r : Runner V) (w : synchronousWorker V)
    (h1 : w.running = false)
    (h2 : w.state = .workerNew ∨ w.state = .workerRunning ∨
      w.state = .workerClosed) :
    swWait r w =
      ⟨{ w with state := .workerResult, result := r.result }, r.result, none, true⟩ ∧
    swWait r { w with state := .workerResult, result := r.result } =
      ⟨{ w with state := .workerResult, result := r.result }, r.result, none, false⟩ ∧
    ∀ (r' : Runner V) (fuel : Nat) (d : Option V),
      swCall r' fuel { w with state := .workerResult, result := r.result } d =
        some ({ w with state := .workerResult, result := r.result },
          some .errWorkerClosed, []) := by
  refine ⟨?_, ?_, ?_⟩
  · rcases h2 with h | h | h <;> simp [swWait, h, h1]
  · simp [swWait, h1]
  · intro r' fuel d
    simp [swCall, callStateCheck, h1]

/-- Witness for C1 at a fresh worker over `Nat` with `Result() = 42`. -/
theorem c1_sync_wait_once_witness :
    swWait rEcho wFresh = ⟨wDone, some 42, none, true⟩ ∧
    swWait rEcho wDone = ⟨wDone, some 42, none, false⟩ ∧
    swCall rEcho 1 wDone (some 0) = some (wDone, some .errWorkerClosed, []) := by
  obtain ⟨a, b, c⟩ := c1_sync_wait_once rEcho wFresh rfl (Or.inl rfl)
  exact ⟨a, b, c rEcho 1 (some 0)⟩

/-! ### C5: `Call` on a closed synchronous worker -/

/-- C5.  `synchronousWorker.Call` in state `workerClosed` or `workerResult`:
with the `running` flag clear it returns `ErrWorkerClosed` and leaves the
worker (state and queue) unchanged; with the flag set (a re-entrant call from
inside `Integrate`) it succeeds, appends the item to the back of the queue,
and returns immediately without draining (empty trace, state unchanged). -/
theorem c5_sync_call_closed {V : Type} (r : Runner V) (fuel : Nat)
    (w : synchronousWorker V) (d : Option V)
    (h : w.state = .workerClosed ∨ w.state = .workerResult) :
    (w.running = false →
      swCall r fuel w d = some (w, some .errWorkerClosed, [])) ∧
    (w.running = true →
      swCall r fuel w d = some ({ w with queue := w.queue ++ [d] }, none, [])) := by
  constructor <;> intro hrun <;> rcases h with h | h <;>
    simp [swCall, callStateCheck, h, hrun]

/-- Witness for C5: a closed worker rejects a top-level `Call` unchanged, and
accepts a re-entrant `Call` by enqueueing. -/
theorem c5_sync_call_closed_witness :
    swCall rEcho 1 wClosedIdle (some 3) =
      some (wClosedIdle, some .errWorkerClosed, []) ∧
    swCall rEcho 1 wClosedBusy (some 3) =
      some ({ wClosedBusy with queue := [some 3] }, none, []) := by
  constructor
  · exact (c5_sync_call_closed rEcho 1 wClosedIdle (some 3) (Or.inl rfl)).1 rfl
  · exact (c5_sync_call_closed rEcho 1 wClosedBusy (some 3) (Or.inl rfl)).2 rfl

/-! ### C7: `Wait` from inside `Integrate` on the synchronous worker -/

/-- C7.  `synchronousWorker.Wait` called while the `running` flag is set
(i.e. from inside `Integrate`) returns `ErrWouldDeadlock` with a `nil`
result, does not invoke `Runner.Result`, and leaves the worker — in
particular its lifecycle state — unchanged. -/
theorem c7_sync_wait_deadlock {V : Type} (r : Runner V)
    (w : synchronousWorker V) (h : w.running = true) :
    swWait r w = ⟨w, none, some .errWouldDeadlock, false⟩ := by
  simp [swWait, h]

/-- Witness for C7 at a running worker over `Nat`. -/
theorem c7_sync_wait_deadlock_witness :
    swWait rEcho wBusy = ⟨wBusy, none, some .errWouldDeadlock, false⟩ :=
  c7_sync_wait_deadlock rEcho wBusy rfl

/-! ### C6: the synchronous worker's drain loop -/

/-- C6.  A successful top-level `Call` (made while the `running` flag is
false) drains the queue and returns with the queue empty and the flag
restored; its trace is exactly, for each processed item in order, a `Run`
invocation through the harness followed by an `Integrate` invocation on the
resulting envelope; and the processed items are exactly the spec's FIFO
processing order of the pre-existing queue plus the submitted item — the
order in which the loop pops fronts while `Integrate`'s re-entrant
submissions are appended to the back and consumed by the same loop before
`Call` returns. -/
theorem c6_sync_drain_fifo {V : Type} (r : Runner V) (fuel : Nat)
    (w w' : synchronousWorker V) (d : Option V) (tr : List (SyncEvent V))
    (hrun : w.running = false)
    (h : swCall r fuel w d = some (w', none, tr)) :
    w'.queue = [] ∧ w'.running = false ∧
      tr = tracePairs r (runsOf tr) ∧
      drainSpecOrder r fuel (w.queue ++ [d]) = some (runsOf tr) := by
  unfold swCall at h
  cases hchk : callStateCheck w with
  | none => rw [hchk] at h; simp at h
  | some w1 =>
      rw [hchk] at h
      obtain ⟨hq1, hr1, -, hs1⟩ := callStateCheck_cases hchk
      simp only [hq1, hr1, hrun, Bool.false_eq_true, if_false] at h
      cases hdrain : swRun r fuel
          { w1 with queue := w.queue ++ [d], running := true } with
      | none =>
          rw [hdrain] at h
          simp at h
      | some out =>
          obtain ⟨w3, tr3⟩ := out
          rw [hdrain] at h
          simp only [Option.some.injEq, Prod.mk.injEq] at h
          obtain ⟨rfl, -, rfl⟩ := h
          obtain ⟨hw3, htr3, hord⟩ := swRun_spec r fuel
            { w1 with queue := w.queue ++ [d], running := true } w3 tr3 rfl hs1
            hdrain
          refine ⟨?_, ?_, htr3, hord⟩
          · rw [hw3]
          · rw [hw3]

/-- Witness for C6: the runner `rExpand` whose `Integrate` re-submits item
`2` upon integrating item `1`; a top-level `Call` of `1` on a fresh worker
processes `1` and then the re-entrantly submitted `2` in the same drain. -/
theorem c6_sync_drain_fifo_witness :
    wAfterExpand.queue = [] ∧ wAfterExpand.running = false ∧
      trExpand = tracePairs rExpand (runsOf trExpand) ∧
      drainSpecOrder rExpand 4 (wFresh.queue ++ [some 1]) =
        some (runsOf trExpand) :=
  c6_sync_drain_fifo rExpand 4 wFresh wAfterExpand (some 1) trExpand rfl rfl

/-! ### C2: `serializer.Wait` -/

/-- Counterexample to C2 as stated.  The claim asserts that the first `Wait`
closes the request channel and awaits the `done` signal for every starting
state `pNew`, `pRunning`, or `pClosed`.  On a fresh serializer (state `pNew`,
once-guard not fired) the code's `pNew` branch only moves to `pClosed` and
runs the once-guard: `close(s.request)` is not executed and `done` is not
received from. -/
theorem c2_serializer_wait_counterexample :
    (serWait dEcho serFresh).closedChannel = false ∧
      (serWait dEcho serFresh).st.requestClosed = false ∧
      (serWait dEcho serFresh).awaitedDone = false := by
  exact ⟨rfl, rfl, rfl⟩

/-- C2, amended.  The first `Wait` (once-guard not yet fired) from starting
state `pNew`, `pRunning`, or `pClosed` invokes `Doer.Finish` exactly once
under the once-guard, transitions the state to `pResult`, caches the returned
value, and returns it; it closes the request channel and awaits the `done`
signal exactly when the starting state is `pRunning`; and a subsequent `Wait`
returns the cached value without invoking `Finish` (and without touching the
channel). -/
theorem c2_serializer_wait_amended {V : Type} (d : Doer V) (s : serializer V)
    (hg : s.gonnerRan = false)
    (hs : s.state = .pNew ∨ s.state = .pRunning ∨ s.state = .pClosed) :
    (serWait d s).finishCalls = 1 ∧
      (serWait d s).value = d.finish ∧
      (serWait d s).st.state = .pResult ∧
      (serWait d s).st.result = d.finish ∧
      (serWait d s).st.gonnerRan = true ∧
      (serWait d s).closedChannel = decide (s.state = .pRunning) ∧
      (serWait d s).awaitedDone = decide (s.state = .pRunning) ∧
      serWait d (serWait d s).st =
        ⟨(serWait d s).st, d.finish, false, false, 0, 0⟩ := by
  rcases hs with h | h | h <;>
    simp [serWait, gonnerDo, getResult, h, hg]

/-- Witness for C2 (amended) at a running serializer over `Nat` with one
buffered request and `Finish() = 7`. -/
theorem c2_serializer_wait_amended_witness :
    (serWait dEcho serBusy).finishCalls = 1 ∧
      (serWait dEcho serBusy).value = dEcho.finish ∧
      (serWait dEcho serBusy).st.state = .pResult ∧
      (serWait dEcho serBusy).st.result = dEcho.finish ∧
      (serWait dEcho serBusy).st.gonnerRan = true ∧
      (serWait dEcho serBusy).closedChannel = decide (serBusy.state = .pRunning) ∧
      (serWait dEcho serBusy).awaitedDone = decide (serBusy.state = .pRunning) ∧
      serWait dEcho (serWait dEcho serBusy).st =
        ⟨(serWait dEcho serBusy).st, dEcho.finish, false, false, 0, 0⟩ :=
  c2_serializer_wait_amended dEcho serBusy rfl (Or.inr (Or.inl rfl))

/-! ### C4: submissions rejected after `Wait` -/

/-- C4.  Once `Wait` has returned, the serializer is in `pResult` (given the
once-guard invariant that a fired guard implies `pResult`; every reachable
serializer satisfies it, since only `getResult` fires the guard and it sets
`pResult`).  In `pResult`, each of `Call`, `CallAsync`, `CallOnly` returns
`ErrClosed`, performs no `Doer.Do` invocation, enqueues nothing, and leaves
the serializer unchanged — and `Wait` itself keeps returning the cached
value, leaving the state in `pResult`, so the rejection applies to every
subsequent submission. -/
theorem c4_serializer_rejects_after_wait {V : Type} (d : Doer V)
    (s : serializer V) (data : Option V)
    (hinv : s.gonnerRan = true → s.state = .pResult) :
    (serWait d s).st.state = .pResult ∧
      (s.state = .pResult →
        serCall d s data = ⟨s, none, some .errClosed, 0⟩ ∧
        serCallAsync s data = ⟨s, none, some .errClosed⟩ ∧
        serCallOnly s data = ⟨s, some .errClosed⟩ ∧
        serWait d s = ⟨s, s.result, false, false, 0, 0⟩) := by
  constructor
  · cases hs : s.state with
    | pResult => simp [serWait, hs]
    | pNew =>
        cases hg : s.gonnerRan with
        | true => rw [hinv hg] at hs; cases hs
        | false => simp [serWait, gonnerDo, getResult, hs, hg]
    | pRunning =>
        cases hg : s.gonnerRan with
        | true => rw [hinv hg] at hs; cases hs
        | false => simp [serWait, gonnerDo, getResult, hs, hg]
    | pClosed =>
        cases hg : s.gonnerRan with
        | true => rw [hinv hg] at hs; cases hs
        | false => simp [serWait, gonnerDo, getResult, hs, hg]
  · intro hs
    refine ⟨?_, ?_, ?_, ?_⟩ <;> simp [serCall, serCallAsync, serCallOnly, serWait, hs]

/-- Witness for C4 at a completed serializer over `Nat`. -/
theorem c4_serializer_rejects_after_wait_witness :
    (serWait dEcho serDone).st.state = .pResult ∧
      serCall dEcho serDone (some 2) = ⟨serDone, none, some .errClosed, 0⟩ ∧
      serCallAsync serDone (some 2) = ⟨serDone, none, some .errClosed⟩ ∧
      serCallOnly serDone (some 2) = ⟨serDone, some .errClosed⟩ ∧
      serWait dEcho serDone = ⟨serDone, serDone.result, false, false, 0, 0⟩ := by
  obtain ⟨a, b⟩ :=
    c4_serializer_rejects_after_wait dEcho serDone (some 2) (fun _ => rfl)
  obtain ⟨b1, b2, b3, b4⟩ := b rfl
  exact ⟨a, b1, b2, b3, b4⟩

/-! Helper lemmas about `callResult` futures. -/

/-- A closed future stays closed and never yields a consuming success. -/
theorem crApply_closed {V : Type} {c : callResult V} (op : crOp V)
    (h : c.closed = true) :
    (crApply c op).closed = true ∧ crSuccess c op = false := by
  cases op with
  | deliver env =>
      constructor
      · cases hr : c.ready <;> simp [crApply, h, hr]
      · simp [crSuccess]
  | wait => simp [crApply, crWait, crSuccess, h]
  | tryWait => simp [crApply, crTryWait, crSuccess, h]
  | channel => simp [crApply, crChannel, crSuccess, h]

/-- Once the future is closed, no operation sequence yields a success. -/
theorem crCount_closed {V : Type} :
    ∀ (ops : List (crOp V)) (c : callResult V), c.closed = true →
      crCount c ops = 0
  | [], _, _ => rfl
  | op :: rest, c, h => by
      obtain ⟨h1, h2⟩ := crApply_closed op h
      simp [crCount, h2, crCount_closed rest _ h1]

/-- A consuming success closes the future. -/
theorem crSuccess_closes {V : Type} {c : callResult V} (op : crOp V)
    (h : crSuccess c op = true) : (crApply c op).closed = true := by
  cases op with
  | wait =>
      simp only [crSuccess, Bool.and_eq_true, Bool.not_eq_true'] at h
      simp [crApply, crWait, h.1]
      cases hr : c.ready <;> simp
  | tryWait =>
      simp only [crSuccess, Bool.and_eq_true, Bool.not_eq_true'] at h
      obtain ⟨h1, h2⟩ := h
      cases hr : c.ready with
      | none => rw [hr] at h2; cases h2
      | some env => simp [crApply, crTryWait, h1, hr]
  | channel =>
      simp only [crSuccess, Bool.not_eq_true'] at h
      simp [crApply, crChannel, h]
  | deliver env => simp [crSuccess] at h

/-- Along any operation sequence, at most one consuming success occurs. -/
theorem crCount_le_one {V : Type} :
    ∀ (ops : List (crOp V)) (c : callResult V), crCount c ops ≤ 1
  | [], _ => by simp [crCount]
  | op :: rest, c => by
      cases hsucc : crSuccess c op with
      | false =>
          simp only [crCount, hsucc, if_false]
          exact Nat.le_trans (Nat.le_of_eq (Nat.zero_add _))
            (crCount_le_one rest (crApply c op))
      | true =>
          simp [crCount, hsucc,
            crCount_closed rest (crApply c op) (crSuccess_closes op hsucc)]

/-! ### C8: the future's one-shot consumption contract -/

/-- C8.  For a `callResult` future: once the `closed` flag is set, `Wait`
returns `nil`, `TryWait` returns `(nil, false)` and `Channel` returns `nil`,
all leaving the future unchanged; on an open future `Wait` and `Channel` set
the flag unconditionally (`Channel` returning the non-`nil` channel), while
`TryWait` sets it only when it actually extracted a response, returning
`(nil, true)` and leaving the flag clear when the response is not yet ready;
consequently, over any sequence of method calls and response deliveries, at
most one of `Wait` returning the response, `TryWait` returning
`(response, true)`, or `Channel` returning a non-`nil` channel ever
occurs. -/
theorem c8_callResult_one_shot {V : Type} (c : callResult V) :
    (c.closed = true →
      crWait c = (c, .returns none) ∧
      crTryWait c = (c, none, false) ∧
      crChannel c = (c, false)) ∧
    (c.closed = false →
      (crWait c).1.closed = true ∧
      crChannel c = ({ c with closed := true }, true) ∧
      (c.ready = none → crTryWait c = (c, none, true)) ∧
      (∀ env, c.ready = some env →
        crWait c = ({ c with closed := true, ready := none }, .returns env) ∧
        crTryWait c = ({ c with closed := true, ready := none }, env, true))) ∧
    (∀ ops : List (crOp V), crCount c ops ≤ 1) := by
  refine ⟨fun h => ?_, fun h => ⟨?_, ?_, fun hr => ?_, fun env hr => ?_⟩,
    fun ops => crCount_le_one ops c⟩
  · exact ⟨by simp [crWait, h], by simp [crTryWait, h], by simp [crChannel, h]⟩
  · rw [crWait]
    simp only [h, Bool.false_eq_true, if_false]
    cases hr : c.ready <;> simp
  · simp [crChannel, h]
  · simp [crTryWait, h, hr]
  · exact ⟨by simp [crWait, h, hr], by simp [crTryWait, h, hr]⟩

/-- Witness for C8 at an open future over `Nat` holding a response. -/
theorem c8_callResult_one_shot_witness :
    crWait crReady =
      ({ crReady with closed := true, ready := none },
        .returns (some { result := some 5, panic := none })) ∧
    crTryWait crReady =
      ({ crReady with closed := true, ready := none },
        some { result := some 5, panic := none }, true) := by
  exact ((c8_callResult_one_shot crReady).2.1 rfl).2.2.2
    (some { result := some 5, panic := none }) rfl

/-! ### C3: the panic harness always yields an envelope -/

/-- Counterexample to C3 as stated.  The claim asserts the harness returns a
`Result` envelope for every function and input, with `Panic` holding the
panic payload.  When the wrapped function panics with a `nil` payload, the
recovered value is `nil`, the `panicData != nil` guard does not fire, and the
harness returns the `nil` `*Result` pointer — no envelope at all (in
particular not the envelope `{Result: nil, Panic: nil}`). -/
theorem c3_panicer_counterexample :
    panicer fnNilPanic none = none ∧
      panicer fnNilPanic none ≠
        some { result := none, panic := none } := by
  exact ⟨rfl, by decide⟩

/-- C3, amended.  For every function and input the harness never propagates
the panic (it is a total function of the function's outcome): on normal
completion with value `v` it returns the envelope `{Result: v, Panic: nil}`;
on a panic with a non-`nil` payload `p` it returns `{Panic: p, Result: nil}`;
on a panic with a `nil` payload it returns the `nil` envelope pointer rather
than an envelope. -/
theorem c3_panicer_amended {V : Type} (fn : Option V → GoOutcome V)
    (data : Option V) :
    (∀ v, fn data = .returns v →
      panicer fn data = some { result := v, panic := none }) ∧
    (∀ p, fn data = .panics (some p) →
      panicer fn data = some { result := none, panic := some p }) ∧
    (fn data = .panics none → panicer fn data = none) := by
  refine ⟨fun v h => ?_, fun p h => ?_, fun h => ?_⟩ <;> simp [panicer, h]

/-- Witness for C3 (amended): a normal return and a non-`nil` panic. -/
theorem c3_panicer_amended_witness :
    panicer fnEcho (some 3) = some { result := some 3, panic := none } ∧
      panicer fnBoom (some 3) = some { result := none, panic := some 9 } :=
  ⟨(c3_panicer_amended fnEcho (some 3)).1 (some 3) rfl,
    (c3_panicer_amended fnBoom (some 3)).2.1 9 rfl⟩

/-! ### C10: the harness's envelope shape, including the `nil`-panic gap -/

/-- C10.  The harness returns a non-`nil` envelope pointer whenever the
wrapped function returns normally or panics with a non-`nil` payload, and
every envelope it ever returns has at most one of its `Result` and `Panic`
fields non-`nil`; when the function panics with a `nil` payload, the harness
recovers the panic but returns the `nil` envelope pointer. -/
theorem c10_panicer_nil_panic_gap {V : Type} (fn : Option V → GoOutcome V)
    (data : Option V) :
    (∀ v, fn data = .returns v →
      ∃ e, panicer fn data = some e ∧ e.result = v ∧ e.panic = none) ∧
    (∀ p, fn data = .panics (some p) →
      ∃ e, panicer fn data = some e ∧ e.panic = some p ∧ e.result = none) ∧
    (∀ e, panicer fn data = some e → e.result = none ∨ e.panic = none) ∧
    (fn data = .panics none → panicer fn data = none) := by
  refine ⟨fun v h => ?_, fun p h => ?_, fun e h => ?_, fun h => ?_⟩
  · exact ⟨{ result := v, panic := none }, by simp [panicer, h], rfl, rfl⟩
  · exact ⟨{ result := none, panic := some p }, by simp [panicer, h], rfl, rfl⟩
  · cases hfn : fn data with
    | returns v => simp [panicer, hfn] at h; rw [← h]; exact Or.inr rfl
    | panics p =>
        cases p with
        | none => simp [panicer, hfn] at h
        | some p' => simp [panicer, hfn] at h; rw [← h]; exact Or.inl rfl
  · simp [panicer, h]

/-- Witness for C10: the three shapes at concrete functions over `Nat`. -/
theorem c10_panicer_nil_panic_gap_witness :
    (∃ e, panicer fnEcho (some 4) = some e ∧
      e.result = some 4 ∧ e.panic = none) ∧
    (∃ e, panicer fnBoom (some 4) = some e ∧
      e.panic = some 9 ∧ e.result = none) ∧
    panicer fnNilPanic (some 4) = none :=
  ⟨(c10_panicer_nil_panic_gap fnEcho (some 4)).1 (some 4) rfl,
    (c10_panicer_nil_panic_gap fnBoom (some 4)).2.1 9 rfl,
    (c10_panicer_nil_panic_gap fnNilPanic (some 4)).2.2.2 rfl⟩

/-! ### C9: `Wait` on the parallel worker's handle -/

/-- C9.  `parallelManager.Wait` — the `Wait` of the handle passed to
`Integrate` by the parallel worker — always returns `DEADLOCK_ERROR` with a
`nil` result, regardless of the handle's queue contents. -/
theorem c9_parallelManager_wait_deadlock {V : Type} (m : parallelManager V) :
    pmWait m = (none, some .errWouldDeadlock) :=
  rfl

end Parallelizer
